import Mathlib

/-!
Shallow embedding of `src/rest/app.py` from mg-rest-hdf5: the request
validation, parameter resolution and response shaping of the adjacency
REST service.  URL plumbing (the `_links` blocks, `request.base_url`,
`request.url_root`) carries no decision logic and is not modelled; every
part that decides a claim — parameter extraction, the presence-counting
checks, integer coercion, error-payload construction, the collaborator
call sequence and the dataset-handle open/close trace — is translated
branch by branch from the source.
-/

/-- A value as it appears in a Python dict echoed to the caller:
`None`, a string (raw query parameter), or an integer (after coercion). -/
inductive Val where
  | none
  | str (s : String)
  | int (n : Int)
  deriving DecidableEq, Repr

/-- Python exception kinds the handlers can raise: `ValueError`
(non-numeric literal passed to `int()`), `TypeError` (`int(None)`),
`NameError` (reference to an unbound local, see `GetDetails.get`
line 229). -/
inductive PyErr where
  | valueError
  | typeError
  | nameError
  deriving DecidableEq, Repr

/-- Collaborator calls made on the adjacency reader during one request,
in the order they happen.  `opened` is the `adjacency(...)` constructor,
`closed` is `handle.close()`. -/
inductive HEvent where
  | opened
  | gotDetails
  | gotRange
  | gotValue
  | closed
  deriving DecidableEq, Repr

/-- Digits of a decimal literal, or `none` when the character list is
empty or contains a non-digit. -/
def digitsToNat (cs : List Char) : Option Nat :=
  if cs.isEmpty then Option.none
  else if cs.all Char.isDigit then
    some (cs.foldl (fun n c => 10 * n + (c.toNat - 48)) 0)
  else Option.none

/-- Model of Python `int(s)` on a string: optional surrounding
whitespace, an optional sign, then one or more decimal digits.
(Python 3 underscore grouping and non-ASCII digits are not modelled;
nothing in this development depends on them.) -/
def pyParseInt (s : String) : Option Int :=
  let cs := ((s.data.dropWhile Char.isWhitespace).reverse.dropWhile
    Char.isWhitespace).reverse
  match cs with
  | '-' :: rest => (digitsToNat rest).map (fun n => -(n : Int))
  | '+' :: rest => (digitsToNat rest).map (fun n => (n : Int))
  | _ => (digitsToNat cs).map (fun n => (n : Int))

/-- Python `int(x)` applied to an extracted query parameter:
`int(None)` raises `TypeError`, a non-numeric string raises
`ValueError`.  The handlers catch only `ValueError`. -/
def pyIntOpt : Option String → Except PyErr Int
  | Option.none => Except.error PyErr.typeError
  | Option.some s =>
    match pyParseInt s with
    | Option.some n => Except.ok n
    | Option.none => Except.error PyErr.valueError

/-- A raw query parameter as echoed in a payload: an absent parameter is
echoed as Python `None`. -/
def ov : Option String → Val
  | Option.none => Val.none
  | Option.some s => Val.str s

/-- Python `str(x)` on an echo value, as used by the TSV renderer. -/
def pyStr : Val → String
  | Val.none => "None"
  | Val.str s => s
  | Val.int n => toString n

/-- One row of the static parameter table inside `help_usage`:
human label, primitive type, REQUIRED or OPTIONAL. -/
structure ParamInfo where
  label : String
  ptype : String
  requirement : String
  deriving DecidableEq, Repr

/-- The static parameter table of `help_usage` (app.py lines 81-99). -/
def parametersTable : List (String × ParamInfo) :=
  [ ("file_id", ⟨"File ID", "str", "REQUIRED"⟩),
    ("chrom", ⟨"Chromosome", "str", "REQUIRED"⟩),
    ("start", ⟨"Start", "int", "REQUIRED"⟩),
    ("end", ⟨"End", "int", "REQUIRED"⟩),
    ("res", ⟨"Resolution", "int", "REQUIRED"⟩),
    ("limit_chr",
      ⟨"Limit interactions to interacting with a specific chromosome",
        "str", "OPTIONAL"⟩),
    ("limit_start",
      ⟨"Limits interactions based on a region within the chromosome defined by the limit_chr parameter. REQUIRES that limit_chr and limit_end are defined",
        "int", "OPTIONAL"⟩),
    ("limit_end",
      ⟨"Limits interactions based on a region within the chromosome defined by the limit_chr parameter. REQUIRES that limit_chr and limit_start are defined",
        "int", "OPTIONAL"⟩),
    ("pos_x", ⟨"Position i", "int", "REQUIRED"⟩),
    ("pos_y", ⟨"Position j", "int", "REQUIRED"⟩),
    ("type", ⟨"add_meta|remove_meta", "str", "REQUIRED"⟩) ]

/-- The payload built by `help_usage`: the filtered parameter
description, the status code field, the optionally echoed provided
parameters and the optional error label.  The `_links` sub-dict holds
request URLs only and is not modelled. -/
structure Message where
  usageParams : List (String × ParamInfo)
  statusCode : Int
  providedParameters : Option (List (String × Val))
  error : Option String
  deriving DecidableEq, Repr

/-- `help_usage` (app.py lines 51-121).  `used_param` is the dict
comprehension `{k : parameters[k] for k in parameters_required if k in
parameters}`; it keeps the order of `parameters_required` and silently
drops names that are not keys of the table.  `provided_parameters` is
attached only when the supplied dict is non-empty (Python truthiness),
and `error` only when an error message was given. -/
def help_usage (error_message : Option String) (status_code : Int)
    (parameters_required : List String)
    (parameters_provided : List (String × Val)) : Message :=
  { usageParams := parameters_required.filterMap
      (fun k => (parametersTable.lookup k).map (fun v => (k, v)))
  , statusCode := status_code
  , providedParameters :=
      if parameters_provided.isEmpty then Option.none
      else some parameters_provided
  , error := error_message }

/-- One interaction record as produced by the reader and consumed by
`output_tsv`: chromosome A, start A, chromosome B, start B, value. -/
structure InteractionRecord where
  chrA : Val
  startA : Val
  chrB : Val
  startB : Val
  value : Val
  deriving DecidableEq, Repr

/-- `output_tsv` (app.py lines 36-49): registered for
`application/tsv`; the body is produced only when the request was routed
to the endpoint named "values" (the range query); for any other endpoint
the Python function falls off the end and returns `None`. -/
def output_tsv (endpoint : String) (values : List InteractionRecord) :
    Option String :=
  if endpoint = "values" then
    some (values.foldl
      (fun outstr v =>
        outstr ++ pyStr v.chrA ++ "\t" ++ pyStr v.startA ++ "\t"
          ++ pyStr v.chrB ++ "\t" ++ pyStr v.startB ++ "\t"
          ++ pyStr v.value ++ "\n") "")
  else Option.none

/-- The five tab-separated fields of one TSV row, newline terminated, in
the fixed order chromosome A, start A, chromosome B, start B, value. -/
def tsvLine (v : InteractionRecord) : String :=
  pyStr v.chrA ++ "\t" ++ pyStr v.startA ++ "\t"
    ++ pyStr v.chrB ++ "\t" ++ pyStr v.startB ++ "\t"
    ++ pyStr v.value ++ "\n"

/-- One line per record, in record order: the intended shape of the TSV
body. -/
def tsvRender : List InteractionRecord → String
  | [] => ""
  | v :: vs => tsvLine v ++ tsvRender vs

/-- The external adjacency reader (`reader.hdf5_adjacency.adjacency`),
abstracted over its observable answers.  A request opens at most one
handle on it; the event trace of each handler records the collaborator
calls actually made. -/
structure Dataset where
  chromosomes : List (String × Int)
  resolutions : List Int
  rangeResults : Option String → Int → Int → Option String →
    Option Int → Option Int → List InteractionRecord
  rangeLog : Option String → Int → Int → Option String →
    Option Int → Option Int → List String
  valueAt : Int → Int → Int
  chromOfIndex : Int → String

/-- Success payload of the details operation: chromosome/length pairs
and the supported resolutions. -/
structure DetailsEnvelope where
  chromosomes : List (String × Int)
  resolutions : List Int
  deriving DecidableEq, Repr

/-- Success payload of the range operation (app.py lines 426-441),
without the `_links` URLs. -/
structure RangeEnvelope where
  resolution : Int
  chr : Option String
  start : Int
  endPos : Int
  limit_chr : Option String
  limit_start : Option Int
  limit_end : Option Int
  interaction_count : Nat
  values : List InteractionRecord
  log : List String
  deriving DecidableEq, Repr

/-- Success payload of the point operation (app.py lines 550-560),
without the `_links` URL. -/
structure ValueEnvelope where
  chrA : String
  chrB : String
  resolution : Int
  pos_x : Int
  pos_y : Int
  value : Int
  deriving DecidableEq, Repr

/-- What a handler returns: a success envelope, a `help_usage` payload
(used both for errors and for the 200 discovery description), the
literal `{"usage": "test"}` placeholder of `GetDetails.get` line 201, or
an uncaught Python exception. -/
inductive Outcome (α : Type) where
  | ok (v : α)
  | msg (m : Message)
  | usageStub
  | crash (e : PyErr)
  deriving DecidableEq, Repr

/-- The error label of a `help_usage` payload, if the outcome is one. -/
def Outcome.errorOf {α : Type} : Outcome α → Option String
  | Outcome.msg m => m.error
  | _ => Option.none

/-- The `status_code` field of a `help_usage` payload, if the outcome is
one. -/
def Outcome.statusOf {α : Type} : Outcome α → Option Int
  | Outcome.msg m => some m.statusCode
  | _ => Option.none

/-- The `provided_parameters` field of a `help_usage` payload, if the
outcome is one and the field was attached. -/
def Outcome.providedOf {α : Type} : Outcome α → Option (List (String × Val))
  | Outcome.msg m => m.providedParameters
  | _ => Option.none

/-- Whether the outcome is a success envelope. -/
def Outcome.isOk {α : Type} : Outcome α → Bool
  | Outcome.ok _ => true
  | _ => false

/-- The query-string parameters of one request, as name/value pairs. -/
def Args : Type := List (String × String)

/-- `request.args.get(name)`. -/
def Args.get (a : Args) (k : String) : Option String :=
  List.lookup k a

/-- `params_required` of `GetInteractions.get` (app.py lines 340-342). -/
def rangeParamsRequired : List String :=
  ["user_id", "file_id", "chr_id", "start", "end", "res",
   "limit_chr", "limit_start", "limit_end"]

/-- `params_required` of `GetValue.get` (app.py line 509). -/
def valueParamsRequired : List String :=
  ["user_id", "file_id", "res", "pos_x", "pos_y"]

/-- `GetDetails.get` (app.py lines 155-229).  `user_id` is the decision
of the `authorized` decorator: `some uid` for an authenticated caller,
`none` otherwise.  The presence list `params` mirrors
`params = [user_id, file_id]`; inside the authenticated branch its first
entry is always present.  `params_required` is assigned only inside the
authenticated branch, so the Forbidden return on line 229 reads an
unbound local and raises `NameError`. -/
def detailsGet (ds : Dataset) (user_id : Option String) (args : Args) :
    Outcome DetailsEnvelope × List HEvent :=
  match user_id with
  | Option.some _uid =>
    let file_id := args.get "file_id"
    let params : List Bool := [true, file_id.isSome]
    -- sum([x is None for x in params]) == len(params)
    if params.all (fun b => !b) then
      (Outcome.usageStub, [])
    -- sum([x is not None for x in params]) != len(params)
    else if !(params.all (fun b => b)) then
      (Outcome.msg (help_usage (some "MissingParameters") 400 ["file_id"]
        [("file_id", ov file_id)]), [])
    else
      (Outcome.ok { chromosomes := ds.chromosomes,
                    resolutions := ds.resolutions },
       [HEvent.opened, HEvent.gotDetails, HEvent.closed])
  | Option.none =>
    (Outcome.crash PyErr.nameError, [])

/-- `hdf5_handle.get_range(...)` followed by `hdf5_handle.close()` and
the success envelope (app.py lines 420-441).  `interaction_count` is
`len(h5_data["results"])` and `values` is `h5_data["results"]`. -/
def rangeFinish (ds : Dataset) (chr_id : Option String)
    (startI endI resI : Int) (limit_chr : Option String)
    (lsI leI : Option Int) (pre : List HEvent) :
    Outcome RangeEnvelope × List HEvent :=
  let results := ds.rangeResults chr_id startI endI limit_chr lsI leI
  (Outcome.ok
    { resolution := resI, chr := chr_id, start := startI, endPos := endI,
      limit_chr := limit_chr, limit_start := lsI, limit_end := leI,
      interaction_count := results.length, values := results,
      log := ds.rangeLog chr_id startI endI limit_chr lsI leI },
   pre ++ [HEvent.gotRange, HEvent.closed])

/-- Lines 376-441 of `GetInteractions.get`: the part after the primary
coercions succeed.  `adjacency(...)` has been constructed and
`get_details()` called — the two leading trace events — and the
resolution gate, the limiting-triple presence check and the
limiting-triple coercion all return without reaching `close()`.
Coercing an absent limit (`int(None)`) raises `TypeError`, which the
`except ValueError` clause does not catch. -/
def rangeOpened (ds : Dataset) (file_id chr_id : Option String)
    (startI endI resI : Int)
    (limit_chr limit_start limit_end : Option String) :
    Outcome RangeEnvelope × List HEvent :=
  let pre := [HEvent.opened, HEvent.gotDetails]
  if resI ∉ ds.resolutions then
    (Outcome.msg (help_usage (some "Resolution Not Available") 400
      rangeParamsRequired
      [("file_id", ov file_id), ("chr", ov chr_id),
       ("start", Val.int startI), ("end", Val.int endI),
       ("res", Val.int resI), ("limit_chr", ov limit_chr),
       ("limit_start", ov limit_start), ("limit_end", ov limit_end)]),
     pre)
  else if limit_start.isSome || limit_end.isSome then
    if limit_chr.isNone then
      (Outcome.msg (help_usage (some "MissingParameters") 400
        rangeParamsRequired
        [("file_id", ov file_id), ("chr", ov chr_id),
         ("start", Val.int startI), ("end", Val.int endI),
         ("res", Val.int resI), ("limit_chr", ov limit_chr),
         ("limit_start", ov limit_start), ("limit_end", ov limit_end)]),
       pre)
    else
      match pyIntOpt limit_start with
      | Except.error PyErr.valueError =>
        (Outcome.msg (help_usage (some "IncorrectParameterType") 400
          rangeParamsRequired
          [("file_id", ov file_id), ("chr", ov chr_id),
           ("start", Val.int startI), ("end", Val.int endI),
           ("res", Val.int resI), ("limit_chr", ov limit_chr),
           ("limit_start", ov limit_start), ("limit_end", ov limit_end)]),
         pre)
      | Except.error e => (Outcome.crash e, pre)
      | Except.ok lsI =>
        match pyIntOpt limit_end with
        | Except.error PyErr.valueError =>
          (Outcome.msg (help_usage (some "IncorrectParameterType") 400
            rangeParamsRequired
            [("file_id", ov file_id), ("chr", ov chr_id),
             ("start", Val.int startI), ("end", Val.int endI),
             ("res", Val.int resI), ("limit_chr", ov limit_chr),
             ("limit_start", Val.int lsI), ("limit_end", ov limit_end)]),
           pre)
        | Except.error e => (Outcome.crash e, pre)
        | Except.ok leI =>
          rangeFinish ds chr_id startI endI resI limit_chr
            (some lsI) (some leI) pre
  else
    rangeFinish ds chr_id startI endI resI limit_chr
      Option.none Option.none pre

/-- `GetInteractions.get` (app.py lines 232-448).  The presence list
mirrors `params = [user_id, file_id, chr_id, start, end, resolution]`;
inside the authenticated branch its first entry is always present.  The
primary coercions run in source order start, end, resolution, rebinding
each local on success, so a later failure echoes the earlier values in
their coerced form; the `IncorrectParameterType` echo dict (lines
369-373) omits `limit_start` and `limit_end`. -/
def rangeGet (ds : Dataset) (user_id : Option String) (args : Args) :
    Outcome RangeEnvelope × List HEvent :=
  match user_id with
  | Option.some _uid =>
    let file_id := args.get "file_id"
    let chr_id := args.get "chr"
    let start := args.get "start"
    let endP := args.get "end"
    let resolution := args.get "res"
    let limit_chr := args.get "limit_chr"
    let limit_start := args.get "limit_start"
    let limit_end := args.get "limit_end"
    let params : List Bool :=
      [true, file_id.isSome, chr_id.isSome, start.isSome,
       endP.isSome, resolution.isSome]
    if params.all (fun b => !b) then
      (Outcome.msg (help_usage Option.none 200 rangeParamsRequired []), [])
    else if !(params.all (fun b => b)) then
      (Outcome.msg (help_usage (some "MissingParameters") 400
        rangeParamsRequired
        [("file_id", ov file_id), ("chr", ov chr_id), ("start", ov start),
         ("end", ov endP), ("res", ov resolution),
         ("limit_chr", ov limit_chr), ("limit_start", ov limit_start),
         ("limit_end", ov limit_end)]), [])
    else
      match pyIntOpt start with
      | Except.error PyErr.valueError =>
        (Outcome.msg (help_usage (some "IncorrectParameterType") 400
          rangeParamsRequired
          [("file_id", ov file_id), ("chr", ov chr_id),
           ("start", ov start), ("end", ov endP),
           ("res", ov resolution), ("limit_chr", ov limit_chr)]), [])
      | Except.error e => (Outcome.crash e, [])
      | Except.ok startI =>
        match pyIntOpt endP with
        | Except.error PyErr.valueError =>
          (Outcome.msg (help_usage (some "IncorrectParameterType") 400
            rangeParamsRequired
            [("file_id", ov file_id), ("chr", ov chr_id),
             ("start", Val.int startI), ("end", ov endP),
             ("res", ov resolution), ("limit_chr", ov limit_chr)]), [])
        | Except.error e => (Outcome.crash e, [])
        | Except.ok endI =>
          match pyIntOpt resolution with
          | Except.error PyErr.valueError =>
            (Outcome.msg (help_usage (some "IncorrectParameterType") 400
              rangeParamsRequired
              [("file_id", ov file_id), ("chr", ov chr_id),
               ("start", Val.int startI), ("end", Val.int endI),
               ("res", ov resolution), ("limit_chr", ov limit_chr)]), [])
          | Except.error e => (Outcome.crash e, [])
          | Except.ok resI =>
            rangeOpened ds file_id chr_id startI endI resI
              limit_chr limit_start limit_end
  | Option.none =>
    (Outcome.msg (help_usage (some "Forbidden") 403
      ["file_id", "chr_id", "start", "end", "res",
       "limit_chr", "limit_start", "limit_end"] []), [])

/-- `GetValue.get` (app.py lines 450-562).  The presence list mirrors
`params = [user_id, file_id, resolution, pos_x, pos_y]`; the
`MissingParameters` and `IncorrectParameterType` echo dicts use the key
`resolution` for the query parameter named `res`.  Coercions run in
source order pos_x, pos_y, resolution, rebinding each local on
success. -/
def valueGet (ds : Dataset) (user_id : Option String) (args : Args) :
    Outcome ValueEnvelope × List HEvent :=
  match user_id with
  | Option.some _uid =>
    let file_id := args.get "file_id"
    let resolution := args.get "res"
    let pos_x := args.get "pos_x"
    let pos_y := args.get "pos_y"
    let params : List Bool :=
      [true, file_id.isSome, resolution.isSome, pos_x.isSome, pos_y.isSome]
    if params.all (fun b => !b) then
      (Outcome.msg (help_usage Option.none 200 valueParamsRequired []), [])
    else if !(params.all (fun b => b)) then
      (Outcome.msg (help_usage (some "MissingParameters") 400
        valueParamsRequired
        [("file_id", ov file_id), ("resolution", ov resolution),
         ("pos_x", ov pos_x), ("pos_y", ov pos_y)]), [])
    else
      match pyIntOpt pos_x with
      | Except.error PyErr.valueError =>
        (Outcome.msg (help_usage (some "IncorrectParameterType") 400
          valueParamsRequired
          [("file_id", ov file_id), ("resolution", ov resolution),
           ("pos_x", ov pos_x), ("pos_y", ov pos_y)]), [])
      | Except.error e => (Outcome.crash e, [])
      | Except.ok xI =>
        match pyIntOpt pos_y with
        | Except.error PyErr.valueError =>
          (Outcome.msg (help_usage (some "IncorrectParameterType") 400
            valueParamsRequired
            [("file_id", ov file_id), ("resolution", ov resolution),
             ("pos_x", Val.int xI), ("pos_y", ov pos_y)]), [])
        | Except.error e => (Outcome.crash e, [])
        | Except.ok yI =>
          match pyIntOpt resolution with
          | Except.error PyErr.valueError =>
            (Outcome.msg (help_usage (some "IncorrectParameterType") 400
              valueParamsRequired
              [("file_id", ov file_id), ("resolution", ov resolution),
               ("pos_x", Val.int xI), ("pos_y", Val.int yI)]), [])
          | Except.error e => (Outcome.crash e, [])
          | Except.ok resI =>
            (Outcome.ok { chrA := ds.chromOfIndex xI,
                          chrB := ds.chromOfIndex yI,
                          resolution := resI, pos_x := xI, pos_y := yI,
                          value := ds.valueAt xI yI },
             [HEvent.opened, HEvent.gotValue, HEvent.closed])
  | Option.none =>
    (Outcome.msg (help_usage (some "Forbidden") 403
      ["file_id", "res", "pos_x", "pos_y"] []), [])

/-! Concrete fixtures used to evaluate the handlers on specific
requests. -/

/-- The interaction record (1, 100, 2, 200, 5). -/
def rec1 : InteractionRecord :=
  { chrA := Val.int 1, startA := Val.int 100, chrB := Val.int 2,
    startB := Val.int 200, value := Val.int 5 }

/-- The interaction record (1, 150, 3, 300, 7). -/
def rec2 : InteractionRecord :=
  { chrA := Val.int 1, startA := Val.int 150, chrB := Val.int 3,
    startB := Val.int 300, value := Val.int 7 }

/-- A concrete store: two chromosomes, supported resolutions 1000 and
10000, a fixed two-record answer for every range query. -/
def ds0 : Dataset :=
  { chromosomes := [("chr1", 32000), ("chr2", 24000)]
  , resolutions := [1000, 10000]
  , rangeResults := fun _ _ _ _ _ _ => [rec1, rec2]
  , rangeLog := fun _ _ _ _ _ _ => []
  , valueAt := fun _ _ => 42
  , chromOfIndex := fun i => if i ≤ 15 then "chr1" else "chr2" }

/-- Valid primary range parameters with an unsupported resolution 500. -/
def argsBadRes : Args :=
  [("file_id", "f1"), ("chr", "chr1"), ("start", "100"),
   ("end", "2000"), ("res", "500")]

/-- Valid primary range parameters, `limit_start` supplied without
`limit_chr`. -/
def argsLimMissing : Args :=
  [("file_id", "f1"), ("chr", "chr1"), ("start", "100"),
   ("end", "2000"), ("res", "1000"), ("limit_start", "5000")]

/-- Valid primary range parameters, full limiting triple with a
non-numeric `limit_start`. -/
def argsLimBadType : Args :=
  [("file_id", "f1"), ("chr", "chr1"), ("start", "100"),
   ("end", "2000"), ("res", "1000"), ("limit_chr", "chr2"),
   ("limit_start", "abc"), ("limit_end", "9000")]

/-- Valid primary range parameters plus `limit_chr` alone. -/
def argsLimChrOnly : Args :=
  [("file_id", "f1"), ("chr", "chr1"), ("start", "100"),
   ("end", "2000"), ("res", "1000"), ("limit_chr", "chr2")]

/-- Valid primary range parameters plus `limit_chr` and `limit_start`
but no `limit_end`. -/
def argsLimChrStart : Args :=
  [("file_id", "f1"), ("chr", "chr1"), ("start", "100"),
   ("end", "2000"), ("res", "1000"), ("limit_chr", "chr2"),
   ("limit_start", "6000")]

/-- Valid primary range parameters with the unsupported resolution 123. -/
def argsRes123 : Args :=
  [("file_id", "f9"), ("chr", "chr2"), ("start", "0"),
   ("end", "4000"), ("res", "123")]

/-- Fully valid range request at the supported resolution 10000. -/
def argsRangeValid : Args :=
  [("file_id", "f1"), ("chr", "chr1"), ("start", "100"),
   ("end", "2000"), ("res", "10000")]

/-- Fully valid point request. -/
def argsValueValid : Args :=
  [("file_id", "f1"), ("res", "1000"), ("pos_x", "10"), ("pos_y", "20")]

/-- A point request supplying only `res`. -/
def argsResOnly : Args := [("res", "1000")]

/-- A range request whose `end` is not numeric. -/
def argsEndAbc : Args :=
  [("file_id", "f1"), ("chr", "chr1"), ("start", "100"),
   ("end", "abc"), ("res", "1000")]

/-- Valid range request with `limit_end` supplied but `limit_chr`
absent. -/
def argsC3w : Args :=
  [("file_id", "f2"), ("chr", "chr2"), ("start", "10"),
   ("end", "400"), ("res", "1000"), ("limit_end", "800")]

/-- Valid primary range parameters with the unsupported resolution 123
and a different file. -/
def argsC4w : Args :=
  [("file_id", "f3"), ("chr", "chr1"), ("start", "7"),
   ("end", "90"), ("res", "123")]

/-- A point request supplying only `file_id`. -/
def argsC6w : Args := [("file_id", "f4")]

/-- A range request whose `end` is the non-numeric string "xyz". -/
def argsC7w : Args :=
  [("file_id", "f5"), ("chr", "chr2"), ("start", "55"),
   ("end", "xyz"), ("res", "444")]

/-- The envelope `rangeGet` produces for `argsRangeValid` on `ds0`. -/
def envRangeValid : RangeEnvelope :=
  { resolution := 10000, chr := some "chr1", start := 100, endPos := 2000,
    limit_chr := Option.none, limit_start := Option.none,
    limit_end := Option.none, interaction_count := 2,
    values := [rec1, rec2], log := [] }

/-! Helper lemmas. -/

/-- String concatenation is associative. -/
theorem strAppendAssoc (a b c : String) : a ++ b ++ c = a ++ (b ++ c) := by
  apply String.ext
  simp

/-- The accumulating loop of `output_tsv` appends one `tsvLine` per
record, in record order. -/
theorem tsv_foldl_eq (vs : List InteractionRecord) (acc : String) :
    vs.foldl (fun outstr v =>
      outstr ++ pyStr v.chrA ++ "\t" ++ pyStr v.startA ++ "\t"
        ++ pyStr v.chrB ++ "\t" ++ pyStr v.startB ++ "\t"
        ++ pyStr v.value ++ "\n") acc = acc ++ tsvRender vs := by
  induction vs generalizing acc with
  | nil => simp [tsvRender]
  | cons v vs ih =>
    rw [List.foldl_cons, ih]
    simp [tsvRender, tsvLine, strAppendAssoc]

/-- Keys surviving the `used_param` comprehension are exactly the
requested names that are keys of the static table, in request order. -/
theorem keysFilterMap (req : List String) :
    (req.filterMap
      (fun k => (parametersTable.lookup k).map (fun v => (k, v)))).map
        Prod.fst
      = req.filter (fun k => (parametersTable.lookup k).isSome) := by
  induction req with
  | nil => rfl
  | cons k ks ih =>
    cases h : parametersTable.lookup k <;> simp [List.filterMap_cons, h, ih]

/-- Every success envelope built after the handle was opened reports an
`interaction_count` equal to the length of its `values` list. -/
theorem rangeOpened_ok_count (ds : Dataset) (file_id chr_id : Option String)
    (startI endI resI : Int)
    (limit_chr limit_start limit_end : Option String)
    (env : RangeEnvelope) (tr : List HEvent)
    (h : rangeOpened ds file_id chr_id startI endI resI
        limit_chr limit_start limit_end = (Outcome.ok env, tr)) :
    env.interaction_count = env.values.length := by
  unfold rangeOpened rangeFinish at h
  repeat' split at h
  all_goals simp at h
  all_goals
    obtain ⟨h1, h2⟩ := h
    subst h1
    rfl

/-! Claim theorems. -/

/-- C1: the claim that a dataset handle, once opened, is closed exactly
once on every exit path fails on the code: the resolution-rejection,
dependent-parameter-rejection and dependent-parameter-coercion branches
of the range operation all return after opening the handle without ever
reaching `close()` — each trace ends at `gotDetails` and contains no
`closed` event. -/
theorem C1_handle_leak_on_error_paths :
    rangeGet ds0 (some "adam") argsBadRes
      = (Outcome.msg (help_usage (some "Resolution Not Available") 400
          rangeParamsRequired
          [("file_id", Val.str "f1"), ("chr", Val.str "chr1"),
           ("start", Val.int 100), ("end", Val.int 2000),
           ("res", Val.int 500), ("limit_chr", Val.none),
           ("limit_start", Val.none), ("limit_end", Val.none)]),
         [HEvent.opened, HEvent.gotDetails]) ∧
    HEvent.closed ∉ (rangeGet ds0 (some "adam") argsBadRes).2 ∧
    (rangeGet ds0 (some "adam") argsLimMissing).1.errorOf
      = some "MissingParameters" ∧
    (rangeGet ds0 (some "adam") argsLimMissing).2
      = [HEvent.opened, HEvent.gotDetails] ∧
    (rangeGet ds0 (some "adam") argsLimBadType).1.errorOf
      = some "IncorrectParameterType" ∧
    (rangeGet ds0 (some "adam") argsLimBadType).2
      = [HEvent.opened, HEvent.gotDetails] := by
  decide

/-- C2: the claim that an authenticated request supplying zero relevant
query parameters yields a 200 discovery payload fails on the code: the
presence list counts `user_id`, which is non-None for every
authenticated caller, so the all-absent branch is unreachable and each
of the three operations instead returns the 400 `MissingParameters`
payload. -/
theorem C2_discovery_branch_unreachable :
    (detailsGet ds0 (some "adam") []).1.errorOf = some "MissingParameters" ∧
    (detailsGet ds0 (some "adam") []).1.statusOf = some 400 ∧
    (rangeGet ds0 (some "adam") []).1.errorOf = some "MissingParameters" ∧
    (rangeGet ds0 (some "adam") []).1.statusOf = some 400 ∧
    (valueGet ds0 (some "adam") []).1.errorOf = some "MissingParameters" ∧
    (valueGet ds0 (some "adam") []).1.statusOf = some 400 := by
  decide

/-- C3 counterexample: supplying exactly one member of the limiting
triple does not always yield 400 `MissingParameters` — `limit_chr` alone
sails through to the range lookup and succeeds, and `limit_chr` plus
`limit_start` (two members) raises an uncaught `TypeError` from
`int(None)` instead of returning a 400 payload. -/
theorem C3_counterexample :
    (rangeGet ds0 (some "adam") argsLimChrOnly).1.errorOf = Option.none ∧
    (rangeGet ds0 (some "adam") argsLimChrOnly).1.isOk = true ∧
    (rangeGet ds0 (some "adam") argsLimChrOnly).2
      = [HEvent.opened, HEvent.gotDetails, HEvent.gotRange,
         HEvent.closed] ∧
    (rangeGet ds0 (some "adam") argsLimChrStart).1
      = Outcome.crash PyErr.typeError := by
  decide

/-- C3 amended: with all primary parameters valid and the resolution
supported, supplying at least one of limit_start/limit_end while
limit_chr is absent yields the 400 `MissingParameters` rejection, and
the trace stops at `gotDetails` — no range lookup is performed. -/
theorem C3_limit_triple_amended (ds : Dataset) (uid : String) (args : Args)
    (f c ss es rs : String) (si ei ri : Int)
    (hf : args.get "file_id" = some f) (hc : args.get "chr" = some c)
    (hs : args.get "start" = some ss) (he : args.get "end" = some es)
    (hr : args.get "res" = some rs)
    (hsi : pyParseInt ss = some si) (hei : pyParseInt es = some ei)
    (hri : pyParseInt rs = some ri)
    (hres : ri ∈ ds.resolutions)
    (hlc : args.get "limit_chr" = Option.none)
    (hlim : (args.get "limit_start").isSome = true ∨
            (args.get "limit_end").isSome = true) :
    rangeGet ds (some uid) args =
      (Outcome.msg (help_usage (some "MissingParameters") 400
        rangeParamsRequired
        [("file_id", Val.str f), ("chr", Val.str c), ("start", Val.int si),
         ("end", Val.int ei), ("res", Val.int ri), ("limit_chr", Val.none),
         ("limit_start", ov (args.get "limit_start")),
         ("limit_end", ov (args.get "limit_end"))]),
       [HEvent.opened, HEvent.gotDetails]) := by
  rcases hlim with h | h <;>
    simp [rangeGet, rangeOpened, pyIntOpt, ov, hf, hc, hs, he, hr,
      hsi, hei, hri, hres, hlc, h]

/-- C3 witness: the amended theorem applied to a concrete request with
`limit_end` supplied and `limit_chr` absent. -/
theorem C3_limit_triple_amended_witness :
    (argsC3w.get "limit_end").isSome = true ∧
    rangeGet ds0 (some "tester") argsC3w
      = (Outcome.msg (help_usage (some "MissingParameters") 400
          rangeParamsRequired
          [("file_id", Val.str "f2"), ("chr", Val.str "chr2"),
           ("start", Val.int 10), ("end", Val.int 400),
           ("res", Val.int 1000), ("limit_chr", Val.none),
           ("limit_start", Val.none), ("limit_end", Val.str "800")]),
         [HEvent.opened, HEvent.gotDetails]) :=
  ⟨by decide,
   C3_limit_triple_amended ds0 "tester" argsC3w "f2" "chr2" "10" "400"
     "1000" 10 400 1000 (by decide) (by decide) (by decide) (by decide)
     (by decide) (by decide) (by decide) (by decide) (by decide)
     (by decide) (Or.inr (by decide))⟩

/-- C4 counterexample: the dataset handle is opened before the
resolution validation, not after it — on a request whose resolution is
unsupported the rejection is produced with the handle already opened
(the trace contains `opened`), refuting the no-handle-before-validation
part of the claim. -/
theorem C4_counterexample :
    (rangeGet ds0 (some "adam") argsRes123).1.errorOf
      = some "Resolution Not Available" ∧
    (rangeGet ds0 (some "adam") argsRes123).1.statusOf = some 400 ∧
    (rangeGet ds0 (some "adam") argsRes123).2
      = [HEvent.opened, HEvent.gotDetails] := by
  decide

/-- C4 amended: when the primary parameters type-check and the requested
resolution is not in the dataset's supported set, the request yields the
400 "Resolution Not Available" rejection — but the handle has already
been opened (the trace starts with `opened`) and is left unclosed. -/
theorem C4_resolution_gate_amended (ds : Dataset) (uid : String)
    (args : Args) (f c ss es rs : String) (si ei ri : Int)
    (hf : args.get "file_id" = some f) (hc : args.get "chr" = some c)
    (hs : args.get "start" = some ss) (he : args.get "end" = some es)
    (hr : args.get "res" = some rs)
    (hsi : pyParseInt ss = some si) (hei : pyParseInt es = some ei)
    (hri : pyParseInt rs = some ri)
    (hres : ri ∉ ds.resolutions) :
    rangeGet ds (some uid) args =
      (Outcome.msg (help_usage (some "Resolution Not Available") 400
        rangeParamsRequired
        [("file_id", Val.str f), ("chr", Val.str c), ("start", Val.int si),
         ("end", Val.int ei), ("res", Val.int ri),
         ("limit_chr", ov (args.get "limit_chr")),
         ("limit_start", ov (args.get "limit_start")),
         ("limit_end", ov (args.get "limit_end"))]),
       [HEvent.opened, HEvent.gotDetails]) := by
  simp [rangeGet, rangeOpened, pyIntOpt, ov, hf, hc, hs, he, hr,
    hsi, hei, hri, hres]

/-- C4 witness: the amended theorem applied to a concrete request asking
for the unsupported resolution 123. -/
theorem C4_resolution_gate_amended_witness :
    (123 : Int) ∉ ds0.resolutions ∧
    rangeGet ds0 (some "tester") argsC4w
      = (Outcome.msg (help_usage (some "Resolution Not Available") 400
          rangeParamsRequired
          [("file_id", Val.str "f3"), ("chr", Val.str "chr1"),
           ("start", Val.int 7), ("end", Val.int 90),
           ("res", Val.int 123), ("limit_chr", Val.none),
           ("limit_start", Val.none), ("limit_end", Val.none)]),
         [HEvent.opened, HEvent.gotDetails]) :=
  ⟨by decide,
   C4_resolution_gate_amended ds0 "tester" argsC4w "f3" "chr1" "7" "90"
     "123" 7 90 123 (by decide) (by decide) (by decide) (by decide)
     (by decide) (by decide) (by decide) (by decide) (by decide)⟩

/-- C5: the claim that an unauthenticated caller always receives a 403
Forbidden payload fails on the details operation: its Forbidden return
references `params_required`, which is assigned only inside the
authenticated branch, so the code raises `NameError` instead.  The range
and point operations do return the Forbidden 403 payload. -/
theorem C5_details_forbidden_crash :
    detailsGet ds0 Option.none [] = (Outcome.crash PyErr.nameError, []) ∧
    detailsGet ds0 Option.none [("file_id", "f1")]
      = (Outcome.crash PyErr.nameError, []) ∧
    (rangeGet ds0 Option.none argsRangeValid).1.errorOf
      = some "Forbidden" ∧
    (rangeGet ds0 Option.none argsRangeValid).1.statusOf = some 403 ∧
    (valueGet ds0 Option.none argsValueValid).1.errorOf
      = some "Forbidden" ∧
    (valueGet ds0 Option.none argsValueValid).1.statusOf = some 403 := by
  decide

/-- C6 counterexample: the `MissingParameters` payload of the point
operation does not echo exactly the raw supplied input — supplying only
`res=1000`, the payload maps four fixed keys, uses the key `resolution`
for the parameter named `res`, and carries `None` entries for the absent
parameters, so it differs from the supplied map. -/
theorem C6_counterexample :
    (valueGet ds0 (some "adam") argsResOnly).1.errorOf
      = some "MissingParameters" ∧
    (valueGet ds0 (some "adam") argsResOnly).1.statusOf = some 400 ∧
    (valueGet ds0 (some "adam") argsResOnly).1.providedOf
      = some [("file_id", Val.none), ("resolution", Val.str "1000"),
              ("pos_x", Val.none), ("pos_y", Val.none)] ∧
    (valueGet ds0 (some "adam") argsResOnly).1.providedOf
      ≠ some (argsResOnly.map (fun p => (p.1, Val.str p.2))) := by
  decide

/-- C6 amended: for the point operation, an authenticated request with
at least one required parameter absent yields 400 `MissingParameters`
whose provided_parameters maps the fixed key set file_id / resolution /
pos_x / pos_y to the raw uncoerced values, `None` for absent ones, with
`res` echoed under the key `resolution`. -/
theorem C6_missing_echo_amended (ds : Dataset) (uid : String) (args : Args)
    (habs : args.get "file_id" = Option.none ∨
            args.get "res" = Option.none ∨
            args.get "pos_x" = Option.none ∨
            args.get "pos_y" = Option.none) :
    valueGet ds (some uid) args =
      (Outcome.msg (help_usage (some "MissingParameters") 400
        valueParamsRequired
        [("file_id", ov (args.get "file_id")),
         ("resolution", ov (args.get "res")),
         ("pos_x", ov (args.get "pos_x")),
         ("pos_y", ov (args.get "pos_y"))]), []) := by
  rcases habs with h | h | h | h <;> simp [valueGet, h]

/-- C6 witness: the amended theorem applied to a request supplying only
`file_id`. -/
theorem C6_missing_echo_amended_witness :
    argsC6w.get "res" = Option.none ∧
    valueGet ds0 (some "tester") argsC6w
      = (Outcome.msg (help_usage (some "MissingParameters") 400
          valueParamsRequired
          [("file_id", Val.str "f4"), ("resolution", Val.none),
           ("pos_x", Val.none), ("pos_y", Val.none)]), []) :=
  ⟨by decide,
   C6_missing_echo_amended ds0 "tester" argsC6w
     (Or.inr (Or.inl (by decide)))⟩

/-- C7 counterexample: the `IncorrectParameterType` payload does not
echo the offending values verbatim — with start=100 and end=abc, the
already-coerced `start` is echoed as the integer 100, not as the
received string "100". -/
theorem C7_counterexample :
    (rangeGet ds0 (some "adam") argsEndAbc).1.errorOf
      = some "IncorrectParameterType" ∧
    (rangeGet ds0 (some "adam") argsEndAbc).1.providedOf
      = some [("file_id", Val.str "f1"), ("chr", Val.str "chr1"),
              ("start", Val.int 100), ("end", Val.str "abc"),
              ("res", Val.str "1000"), ("limit_chr", Val.none)] ∧
    (rangeGet ds0 (some "adam") argsEndAbc).1.providedOf
      ≠ some [("file_id", Val.str "f1"), ("chr", Val.str "chr1"),
              ("start", Val.str "100"), ("end", Val.str "abc"),
              ("res", Val.str "1000"), ("limit_chr", Val.none)] := by
  decide

/-- C7 amended: a numeric coercion failure on a range request yields the
400 `IncorrectParameterType` rejection; parameters coerced before the
failing one are echoed as integers while the failing and subsequent
parameters are echoed verbatim — shown for an `end` that fails after
`start` succeeded. -/
theorem C7_coercion_echo_amended (ds : Dataset) (uid : String) (args : Args)
    (f c ss es rs : String) (si : Int)
    (hf : args.get "file_id" = some f) (hc : args.get "chr" = some c)
    (hs : args.get "start" = some ss) (he : args.get "end" = some es)
    (hr : args.get "res" = some rs)
    (hsi : pyParseInt ss = some si) (hei : pyParseInt es = Option.none) :
    rangeGet ds (some uid) args =
      (Outcome.msg (help_usage (some "IncorrectParameterType") 400
        rangeParamsRequired
        [("file_id", Val.str f), ("chr", Val.str c), ("start", Val.int si),
         ("end", Val.str es), ("res", Val.str rs),
         ("limit_chr", ov (args.get "limit_chr"))]), []) := by
  simp [rangeGet, pyIntOpt, ov, hf, hc, hs, he, hr, hsi, hei]

/-- C7 witness: the amended theorem applied to a request whose `end` is
the non-numeric string "xyz". -/
theorem C7_coercion_echo_amended_witness :
    pyParseInt "xyz" = Option.none ∧
    rangeGet ds0 (some "tester") argsC7w
      = (Outcome.msg (help_usage (some "IncorrectParameterType") 400
          rangeParamsRequired
          [("file_id", Val.str "f5"), ("chr", Val.str "chr2"),
           ("start", Val.int 55), ("end", Val.str "xyz"),
           ("res", Val.str "444"), ("limit_chr", Val.none)]), []) :=
  ⟨by decide,
   C7_coercion_echo_amended ds0 "tester" argsC7w "f5" "chr2" "55" "xyz"
     "444" 55 (by decide) (by decide) (by decide) (by decide) (by decide)
     (by decide) (by decide)⟩

/-- C8: every successful range response reports an `interaction_count`
equal to the length of its `values` sequence, for every store, caller
and argument map. -/
theorem C8_interaction_count (ds : Dataset) (user_id : Option String)
    (args : Args) (env : RangeEnvelope) (tr : List HEvent)
    (h : rangeGet ds user_id args = (Outcome.ok env, tr)) :
    env.interaction_count = env.values.length := by
  cases user_id with
  | none => simp [rangeGet] at h
  | some uid =>
    simp only [rangeGet] at h
    repeat' split at h
    all_goals first
      | exact rangeOpened_ok_count _ _ _ _ _ _ _ _ _ _ _ h
      | simp at h

/-- C8 witness: the theorem applied to a concrete successful range
request on `ds0`. -/
theorem C8_interaction_count_witness :
    rangeGet ds0 (some "adam") argsRangeValid
      = (Outcome.ok envRangeValid,
         [HEvent.opened, HEvent.gotDetails, HEvent.gotRange,
          HEvent.closed]) ∧
    envRangeValid.interaction_count = envRangeValid.values.length :=
  ⟨by decide,
   C8_interaction_count ds0 (some "adam") argsRangeValid envRangeValid
     [HEvent.opened, HEvent.gotDetails, HEvent.gotRange, HEvent.closed]
     (by decide)⟩

/-- C9: tabular rendering of a range envelope is one newline-terminated
line per interaction record, in record order, each line the five
tab-separated fields chromosome A, start A, chromosome B, start B,
value, and nothing else; in particular the records (1,100,2,200,5) and
(1,150,3,300,7) render exactly as the claimed string. -/
theorem C9_tsv_rendering :
    output_tsv "values" [rec1, rec2]
      = some "1\t100\t2\t200\t5\n1\t150\t3\t300\t7\n" ∧
    ∀ vs : List InteractionRecord,
      output_tsv "values" vs = some (tsvRender vs) := by
  refine ⟨by decide, fun vs => ?_⟩
  simp [output_tsv, tsv_foldl_eq]

/-- C10: the parameters section of every usage payload contains exactly
those names of the requesting operation's required list that are keys of
the static table, in list order; the range operation's names `user_id`
and `chr_id` are not table keys, so its usage payloads never describe
the chromosome parameter. -/
theorem C10_usage_parameter_filter :
    (∀ (e : Option String) (code : Int) (req : List String)
        (pp : List (String × Val)),
      ((help_usage e code req pp).usageParams).map Prod.fst
        = req.filter (fun k => (parametersTable.lookup k).isSome)) ∧
    ((help_usage Option.none 200 rangeParamsRequired []).usageParams).map
        Prod.fst
      = ["file_id", "start", "end", "res", "limit_chr", "limit_start",
         "limit_end"] ∧
    "chrom" ∉ ((help_usage Option.none 200 rangeParamsRequired
        []).usageParams).map Prod.fst ∧
    "chr_id" ∉ ((help_usage Option.none 200 rangeParamsRequired
        []).usageParams).map Prod.fst := by
  refine ⟨fun e code req pp => ?_, by decide, by decide, by decide⟩
  simp only [help_usage]
  exact keysFilterMap req
